/-
Verification of the SSAFY-Don-t-Care backend against its specification.

This file shallowly embeds the parts of the Python source that the claims
speak about:

* `backend/dontcare/stocks/token_manager.py` — the KIS API token manager
  (`KISTokenManager.get_token`, `_refresh_token`, `_request_new_token`,
  `get_token_manager`).
* `backend/dontcare/stocks/utils.py` — the `retry_on_429` decorator, the
  in-memory `_cache`/`_cache_timestamps` pair with `get_cached_data` /
  `set_cached_data`, and `get_stock_data` / `get_default_stock_data`.
* `backend/dontcare/accounts/redis_otp.py` — `RedisOTPManager` (`_hash`,
  `_verify_hash`, `issue`, `verify`).

External effects are made explicit: the Django cache is passed as explicit
state or as observation functions, `datetime.now()` becomes an integer
timestamp argument, random draws (`secrets.randbelow`, `secrets.token_hex`,
`random.uniform`) become explicit arguments, and HTTP requests become an
inductive outcome argument.  `hashlib.pbkdf2_hmac(...).hex()` is abstracted
as a function argument `pbkdf2 : String → String → String` (a pure function
of the code and the salt; its `.hex()` output never contains a colon).
-/
import Mathlib

namespace DontCare

/-! ## KIS token manager (`stocks/token_manager.py`) -/

/-- A snapshot of the two cache keys `kis_api_token` and
`kis_api_token_expires` as read by `cache.get`; `none` models a cache miss. -/
structure CacheView where
  token : Option String
  expires : Option String
deriving DecidableEq

/-- Python truthiness of an optional string: `None` and `""` are falsy. -/
def pyTruthy : Option String → Bool
  | none => false
  | some s => s ≠ ""

/-- The token-validity check that `get_token` and `_refresh_token` both
perform: `if token and expires_str:` followed by
`datetime.fromisoformat(expires_str)` (modelled by `parse`, with `none` for
a `ValueError`/`TypeError`) and `datetime.now() < expires_at` (with `now`
the current time).  Returns the token when it is valid, else `none`. -/
def cachedValid (parse : String → Option Int) (now : Int) (v : CacheView) :
    Option String :=
  match v.token, v.expires with
  | some t, some e =>
    if t ≠ "" ∧ e ≠ "" then
      match parse e with
      | some expiresAt => if now < expiresAt then some t else none
      | none => none
    else none
  | _, _ => none

/-- Environment of one `get_token`/`_refresh_token` execution: the ISO-8601
parser, the outcome of `cache.add` on the lock key, the cache snapshots and
clock readings at each observation point, and the outcomes of the two HTTP
token requests. -/
structure TMEnv where
  /-- Python `datetime.fromisoformat`; `none` models `ValueError`/`TypeError`. -/
  parse : String → Option Int
  /-- result of `cache.add(TOKEN_LOCK_KEY, "locked", timeout=30)`. -/
  lockAcquired : Bool
  /-- cache snapshot read at the top of `get_token`. -/
  view0 : CacheView
  /-- Python `datetime.now()` during `get_token`'s validity check. -/
  now0 : Int
  /-- cache snapshot of the double-check read under the lock. -/
  dview : CacheView
  /-- Python `datetime.now()` during the double-check. -/
  dnow : Int
  /-- cache snapshot read after the `k`-th backoff wait (`k = 0, 1, ...`). -/
  obs : Nat → CacheView
  /-- Python `datetime.now()` at the `k`-th backoff check. -/
  obsNow : Nat → Int
  /-- outcome of `_request_new_token` (`.error` = `KISTokenError`). -/
  newToken : Except String String
  /-- outcome of `_request_new_token_direct`. -/
  directToken : Except String String

/-- Observable outcome of a token-manager call: the returned token (or the
raised `KISTokenError` message), the `time.sleep` durations in seconds in
order, the number of HTTP token requests issued, and the cache keys written
(by `cache.add`, `cache.set` or `cache.delete`) in order. -/
structure TMOut where
  result : Except String String
  sleeps : List Nat
  httpCalls : Nat
  writes : List String

def TOKEN_KEY : String := "kis_api_token"
def TOKEN_EXPIRES_KEY : String := "kis_api_token_expires"
def TOKEN_LOCK_KEY : String := "kis_api_token_lock"

/-- Python `max_retries = 5` in `_refresh_token`. -/
def refreshMaxRetries : Nat := 5

/-- Python `base_wait_time = 2` in `_refresh_token`. -/
def baseWaitTime : Nat := 2

/-- Effects of `_request_new_token`: one HTTP POST; on success the token and
its expiry are written to the cache. -/
def requestNewTokenEff (env : TMEnv) : TMOut :=
  { result := env.newToken
    sleeps := []
    httpCalls := 1
    writes :=
      match env.newToken with
      | .ok _ => [TOKEN_KEY, TOKEN_EXPIRES_KEY]
      | .error _ => [] }

/-- Effects of `_request_new_token_direct` (same body as
`_request_new_token`, used as the cache-bypass fallback). -/
def requestNewTokenDirectEff (env : TMEnv) : TMOut :=
  { result := env.directToken
    sleeps := []
    httpCalls := 1
    writes :=
      match env.directToken with
      | .ok _ => [TOKEN_KEY, TOKEN_EXPIRES_KEY]
      | .error _ => [] }

/-- The backoff loop `for retry in range(max_retries):` of `_refresh_token`
when the lock was not acquired.  At retry index `k` it sleeps
`base_wait_time * 2 ** retry` seconds, re-reads the cached token and expiry,
and returns the token as soon as the validity check passes.  Returns the
sleep durations performed and the token found, if any.  `fuel` is the number
of remaining loop iterations (initially `max_retries`). -/
def retryWaitLoop (env : TMEnv) : Nat → Nat → List Nat × Option String
  | _, 0 => ([], none)
  | k, fuel + 1 =>
    let w := baseWaitTime * 2 ^ k
    match cachedValid env.parse (env.obsNow k) (env.obs k) with
    | some t => ([w], some t)
    | none =>
      let r := retryWaitLoop env (k + 1) fuel
      (w :: r.1, r.2)

/-- Python `KISTokenManager._refresh_token`.  Under the local lock it attempts
`cache.add` on the lock key; if the lock is not acquired it runs the
exponential-backoff wait loop and, failing that, falls back to
`_request_new_token_direct`; if the lock is acquired it double-checks the
cache, calls `_request_new_token` when still stale, and releases the lock. -/
def refreshTokenM (env : TMEnv) : TMOut :=
  if env.lockAcquired then
    match cachedValid env.parse env.dnow env.dview with
    | some t =>
      { result := .ok t, sleeps := [], httpCalls := 0
        writes := [TOKEN_LOCK_KEY, TOKEN_LOCK_KEY] }
    | none =>
      let r := requestNewTokenEff env
      { r with writes := TOKEN_LOCK_KEY :: (r.writes ++ [TOKEN_LOCK_KEY]) }
  else
    let r := retryWaitLoop env 0 refreshMaxRetries
    match r.2 with
    | some t =>
      { result := .ok t, sleeps := r.1, httpCalls := 0, writes := [] }
    | none =>
      let d := requestNewTokenDirectEff env
      { d with sleeps := r.1 }

/-- Python `KISTokenManager.get_token`: read the cached token and expiry, return the
token when the validity check passes, otherwise fall through to
`_refresh_token`. -/
def getTokenM (env : TMEnv) : TMOut :=
  match cachedValid env.parse env.now0 env.view0 with
  | some t => { result := .ok t, sleeps := [], httpCalls := 0, writes := [] }
  | none => refreshTokenM env

/-- Shifting a `List.range` map of exponential waits by one step. -/
lemma cons_map_range_pow (b k f : Nat) :
    b * 2 ^ k :: (List.range f).map (fun i => b * 2 ^ (k + 1 + i)) =
      (List.range (f + 1)).map (fun i => b * 2 ^ (k + i)) := by
  rw [List.range_succ_eq_map, List.map_cons, List.map_map]
  refine List.cons_eq_cons.mpr ⟨by rw [Nat.add_zero], ?_⟩
  apply List.map_congr_left
  intro i _
  simp only [Function.comp]
  have h : k + 1 + i = k + i.succ := by omega
  rw [h]

/-- When every observation in the remaining iterations is invalid, the wait
loop performs all its sleeps and finds no token. -/
lemma retryWaitLoop_all_none (env : TMEnv) :
    ∀ (fuel k : Nat),
      (∀ i, i < fuel →
        cachedValid env.parse (env.obsNow (k + i)) (env.obs (k + i)) = none) →
      retryWaitLoop env k fuel =
        ((List.range fuel).map (fun i => baseWaitTime * 2 ^ (k + i)), none) := by
  intro fuel
  induction fuel with
  | zero => intro k _; simp [retryWaitLoop]
  | succ f ih =>
    intro k h
    have h0 : cachedValid env.parse (env.obsNow k) (env.obs k) = none := by
      simpa using h 0 (Nat.succ_pos f)
    have hrec := ih (k + 1) (fun i hi => by
      have := h (i + 1) (Nat.succ_lt_succ hi)
      simpa [Nat.add_assoc, Nat.add_comm 1 i] using this)
    simp only [retryWaitLoop, h0, hrec]
    rw [Prod.mk.injEq]
    exact ⟨cons_map_range_pow baseWaitTime k f, rfl⟩

/-- When the first valid observation is at index `j` (within the remaining
fuel), the wait loop sleeps through indices `0..j` and returns that token. -/
lemma retryWaitLoop_found (env : TMEnv) :
    ∀ (j : Nat), ∀ (fuel k : Nat) (t : String), j < fuel →
      (∀ i, i < j →
        cachedValid env.parse (env.obsNow (k + i)) (env.obs (k + i)) = none) →
      cachedValid env.parse (env.obsNow (k + j)) (env.obs (k + j)) = some t →
      retryWaitLoop env k fuel =
        ((List.range (j + 1)).map (fun i => baseWaitTime * 2 ^ (k + i)),
          some t) := by
  intro j
  induction j with
  | zero =>
    intro fuel k t hlt _ hfound
    obtain ⟨f, rfl⟩ := Nat.exists_eq_succ_of_ne_zero (Nat.pos_iff_ne_zero.mp hlt)
    simp only [Nat.add_zero] at hfound
    simp [retryWaitLoop, hfound, List.range_succ]
  | succ j ih =>
    intro fuel k t hlt hnone hfound
    obtain ⟨f, rfl⟩ := Nat.exists_eq_succ_of_ne_zero
      (Nat.pos_iff_ne_zero.mp (Nat.lt_of_le_of_lt (Nat.zero_le _) hlt))
    have h0 : cachedValid env.parse (env.obsNow k) (env.obs k) = none := by
      simpa using hnone 0 (Nat.succ_pos j)
    have hrec := ih f (k + 1) t (Nat.lt_of_succ_lt_succ hlt)
      (fun i hi => by
        have := hnone (i + 1) (Nat.succ_lt_succ hi)
        simpa [Nat.add_assoc, Nat.add_comm 1 i] using this)
      (by
        have : k + 1 + j = k + (j + 1) := by omega
        rw [this]; exact hfound)
    simp only [retryWaitLoop, h0, hrec]
    rw [Prod.mk.injEq]
    exact ⟨cons_map_range_pow baseWaitTime k (j + 1), rfl⟩

/-- C1.  When `_refresh_token` fails to acquire the Redis lock
(`cache.add` on `TOKEN_LOCK_KEY` returns false), it retries with exponential
backoff: when all `max_retries = 5` observations are invalid it sleeps
exactly 2, 4, 8, 16, 32 seconds and falls back to
`_request_new_token_direct`; when the first valid cached token appears at
retry `j` it sleeps `base_wait_time * 2 ^ k` for `k = 0..j` and returns that
cached token with no HTTP request and no cache write. -/
theorem refresh_token_lock_backoff (env : TMEnv)
    (hlock : env.lockAcquired = false) :
    ((∀ k, k < refreshMaxRetries →
        cachedValid env.parse (env.obsNow k) (env.obs k) = none) →
      refreshTokenM env =
        { requestNewTokenDirectEff env with sleeps := [2, 4, 8, 16, 32] })
    ∧ (∀ j t, j < refreshMaxRetries →
        (∀ k, k < j →
          cachedValid env.parse (env.obsNow k) (env.obs k) = none) →
        cachedValid env.parse (env.obsNow j) (env.obs j) = some t →
        refreshTokenM env =
          { result := .ok t
            sleeps := (List.range (j + 1)).map (fun k => baseWaitTime * 2 ^ k)
            httpCalls := 0
            writes := [] }) := by
  constructor
  · intro hnone
    have hloop := retryWaitLoop_all_none env refreshMaxRetries 0
      (fun i hi => by simpa using hnone i hi)
    have hl : (List.range refreshMaxRetries).map
        (fun i => baseWaitTime * 2 ^ (0 + i)) = [2, 4, 8, 16, 32] := by
      decide
    simp only [refreshTokenM, hlock, Bool.false_eq_true, if_false, hloop, hl]
  · intro j t hj hnone hfound
    have hloop := retryWaitLoop_found env j refreshMaxRetries 0 t hj
      (fun i hi => by simpa using hnone i hi)
      (by simpa using hfound)
    simp only [refreshTokenM, hlock, Bool.false_eq_true, if_false, hloop]
    congr 1
    apply List.map_congr_left
    intro i _
    simp

/-- Closed witness for `refresh_token_lock_backoff`: a concrete environment
in which the lock is never acquired and no retry observes a valid token, so
the call degenerates to the direct request after sleeping 2, 4, 8, 16, 32. -/
def tmEnvAllStale : TMEnv :=
  { parse := fun _ => none
    lockAcquired := false
    view0 := ⟨none, none⟩
    now0 := 0
    dview := ⟨none, none⟩
    dnow := 0
    obs := fun _ => ⟨none, none⟩
    obsNow := fun _ => 0
    newToken := .ok "fresh-token"
    directToken := .ok "direct-token" }

theorem refresh_token_lock_backoff_witness :
    tmEnvAllStale.lockAcquired = false ∧
      refreshTokenM tmEnvAllStale =
        { requestNewTokenDirectEff tmEnvAllStale with
            sleeps := [2, 4, 8, 16, 32] } :=
  ⟨rfl, (refresh_token_lock_backoff tmEnvAllStale rfl).1 (fun _ _ => rfl)⟩

/-- C2.  `get_token` is cache-aside: when the cache holds a (truthy) token
and an expiry string that parses to a time strictly later than now, it
returns that token with no sleep, no HTTP request and no cache write; in
every other case (`cachedValid … = none`: token absent, expiry absent or
unparseable, or expiry not in the future) it invokes `_refresh_token`. -/
theorem get_token_cache_aside (env : TMEnv) :
    (∀ t e x, env.view0.token = some t → t ≠ "" →
      env.view0.expires = some e → e ≠ "" →
      env.parse e = some x → env.now0 < x →
      getTokenM env =
        { result := .ok t, sleeps := [], httpCalls := 0, writes := [] })
    ∧ (cachedValid env.parse env.now0 env.view0 = none →
        getTokenM env = refreshTokenM env) := by
  constructor
  · intro t e x ht htne he hene hparse hfut
    have hvalid : cachedValid env.parse env.now0 env.view0 = some t := by
      simp [cachedValid, ht, he, htne, hene, hparse, hfut]
    simp [getTokenM, hvalid]
  · intro hnone
    simp [getTokenM, hnone]

/-- Closed witness for `get_token_cache_aside`: a concrete environment whose
cache holds a valid token, on which `get_token` returns it effect-free. -/
def tmEnvFresh : TMEnv :=
  { parse := fun s => if s = "2030-01-01T00:00:00" then some 100 else none
    lockAcquired := true
    view0 := ⟨some "cached-token", some "2030-01-01T00:00:00"⟩
    now0 := 50
    dview := ⟨none, none⟩
    dnow := 0
    obs := fun _ => ⟨none, none⟩
    obsNow := fun _ => 0
    newToken := .ok "fresh-token"
    directToken := .ok "direct-token" }

theorem get_token_cache_aside_witness :
    getTokenM tmEnvFresh =
      { result := .ok "cached-token", sleeps := [], httpCalls := 0
        writes := [] } :=
  (get_token_cache_aside tmEnvFresh).1 "cached-token" "2030-01-01T00:00:00"
    100 rfl (by decide) rfl (by decide) rfl (by decide)

/-! ## `_request_new_token` in detail (claim C5)

The HTTP POST to `/oauth2/tokenP` is modelled by an inductive outcome.  A
`KISTokenError` raised inside the `try` block for a missing `access_token`
is caught by the function's own trailing `except Exception` clause and
re-raised with the `예상치 못한 토큰 요청 오류` prefix, which the model
reproduces. -/

/-- Outcome of `requests.post(url, json=data, headers=headers, timeout=30)`
followed by `response.raise_for_status()` and `response.json()`. -/
inductive HTTPResult where
  | timeout
  | connError
  | httpError (status : Nat)
  | reqError (msg : String)
  | jsonError (msg : String)
  | ok (accessToken : Option String) (expiresIn : Option Int)

def errTimeoutMsg : String := "토큰 요청 시간 초과"
def errConnMsg : String := "토큰 요청 연결 오류"
def err403Msg : String := "토큰 요청 권한 오류 - API 키 확인 필요"
def err429Msg : String := "토큰 요청 횟수 초과"
def errHTTPOtherMsg (e : String) : String := "토큰 요청 HTTP 오류: " ++ e
def errReqFailMsg (e : String) : String := "토큰 요청 실패: " ++ e
def errUnexpectedMsg (e : String) : String := "예상치 못한 토큰 요청 오류: " ++ e
def noTokenMsg : String := "No access token received from KIS API"

/-- Python `KISTokenManager._request_new_token`.  Returns the raised
`KISTokenError` message or the bearer token, together with whether the
token was written to the cache (`cacheWriteFails` models the swallowed
`cache.set` failure). -/
def requestNewToken (resp : HTTPResult) (cacheWriteFails : Bool) :
    Except String String × Bool :=
  match resp with
  | .timeout => (.error errTimeoutMsg, false)
  | .connError => (.error errConnMsg, false)
  | .httpError s =>
    if s = 403 then (.error err403Msg, false)
    else if s = 429 then (.error err429Msg, false)
    else (.error (errHTTPOtherMsg (toString s)), false)
  | .reqError m => (.error (errReqFailMsg m), false)
  | .jsonError m => (.error (errUnexpectedMsg m), false)
  | .ok tok _ =>
    match tok with
    | none => (.error (errUnexpectedMsg noTokenMsg), false)
    | some t =>
      if t = "" then (.error (errUnexpectedMsg noTokenMsg), false)
      else (.ok t, !cacheWriteFails)

/-- C5.  `_request_new_token` returns a bearer token iff the POST succeeded
and the JSON body carries a non-empty `access_token`; every other outcome
raises `KISTokenError`, the 403 and 429 statuses carry distinct messages,
and a cache-write failure never changes the returned value. -/
theorem request_new_token_spec (resp : HTTPResult) (cw : Bool) :
    ((∃ t, (requestNewToken resp cw).1 = .ok t) ↔
      ∃ t ein, resp = .ok (some t) ein ∧ t ≠ "")
    ∧ (requestNewToken resp cw).1 = (requestNewToken resp false).1
    ∧ (∀ t ein, resp = .ok (some t) ein → t ≠ "" →
        (requestNewToken resp cw).1 = .ok t)
    ∧ requestNewToken (.httpError 403) cw = (.error err403Msg, false)
    ∧ requestNewToken (.httpError 429) cw = (.error err429Msg, false)
    ∧ err403Msg ≠ err429Msg := by
  refine ⟨⟨?_, ?_⟩, ?_, ?_, ?_, ?_, ?_⟩
  · rintro ⟨t, ht⟩
    cases resp with
    | ok tok ein =>
      cases tok with
      | none => simp [requestNewToken] at ht
      | some s =>
        by_cases hs : s = ""
        · simp [requestNewToken, hs] at ht
        · exact ⟨s, ein, rfl, hs⟩
    | timeout => simp [requestNewToken] at ht
    | connError => simp [requestNewToken] at ht
    | httpError s =>
      simp only [requestNewToken] at ht
      split_ifs at ht <;> simp_all
    | reqError m => simp [requestNewToken] at ht
    | jsonError m => simp [requestNewToken] at ht
  · rintro ⟨t, ein, rfl, ht⟩
    exact ⟨t, by simp [requestNewToken, ht]⟩
  · cases resp with
    | ok tok ein =>
      cases tok with
      | none => rfl
      | some s =>
        by_cases hs : s = "" <;> simp [requestNewToken, hs]
    | timeout => rfl
    | connError => rfl
    | httpError s => rfl
    | reqError m => rfl
    | jsonError m => rfl
  · rintro t ein rfl ht
    simp [requestNewToken, ht]
  · rfl
  · rfl
  · decide

theorem request_new_token_spec_witness :
    (requestNewToken (.ok (some "tok-123") (some 86400)) true).1 =
      .ok "tok-123" :=
  (request_new_token_spec (.ok (some "tok-123") (some 86400)) true).2.2.1
    "tok-123" (some 86400) rfl (by decide)

/-! ## `get_token_manager` singleton accessor (claim C7) -/

/-- The three environment variables `__init__` reads; `none` models an
unset variable, `some ""` a variable set to the empty string. -/
structure KISEnv where
  appKey : Option String
  appSecret : Option String
  baseURL : Option String

def DEFAULT_BASE_URL : String := "https://openapi.koreainvestment.com:9443"

/-- The state captured by `KISTokenManager.__init__` (the `threading.Lock`
it also creates carries no data). -/
structure KISTokenMgr where
  app_key : String
  app_secret : String
  base_url : String
deriving DecidableEq

def initErrMsg : String :=
  "KIS_APP_KEY and KIS_APP_SECRET environment variables are required"

/-- Python `KISTokenManager.__init__`: read the environment, raise `ValueError`
when either credential is falsy (unset or empty). -/
def mkKISTokenMgr (env : KISEnv) : Except String KISTokenMgr :=
  if pyTruthy env.appKey = false ∨ pyTruthy env.appSecret = false then
    .error initErrMsg
  else
    .ok { app_key := env.appKey.getD ""
          app_secret := env.appSecret.getD ""
          base_url := env.baseURL.getD DEFAULT_BASE_URL }

/-- Python `get_token_manager` over the module-level `_token_manager` state:
construct the manager on first call, thereafter return the stored one.
Returns the manager together with the new module state. -/
def getTokenManager (st : Option KISTokenMgr) (env : KISEnv) :
    Except String (KISTokenMgr × Option KISTokenMgr) :=
  match st with
  | some m => .ok (m, some m)
  | none =>
    match mkKISTokenMgr env with
    | .ok m => .ok (m, some m)
    | .error e => .error e

/-- C7.  `get_token_manager` is a singleton accessor: any successful call
fixes the state, and every later call (under any environment) returns the
very same manager and leaves the state unchanged; the first call raises
`ValueError` when `KIS_APP_KEY` or `KIS_APP_SECRET` is unset. -/
theorem get_token_manager_singleton :
    (∀ (st : Option KISTokenMgr) (env env' : KISEnv) (m : KISTokenMgr)
        (st' : Option KISTokenMgr),
      getTokenManager st env = .ok (m, st') →
      getTokenManager st' env' = .ok (m, st'))
    ∧ (∀ env : KISEnv, env.appKey = none ∨ env.appSecret = none →
        getTokenManager none env = .error initErrMsg) := by
  constructor
  · intro st env env' m st' h
    match st with
    | some m0 =>
      simp only [getTokenManager, Except.ok.injEq, Prod.mk.injEq] at h
      obtain ⟨rfl, rfl⟩ := h
      rfl
    | none =>
      simp only [getTokenManager] at h
      match hmk : mkKISTokenMgr env with
      | .ok m0 =>
        rw [hmk] at h
        simp only [Except.ok.injEq, Prod.mk.injEq] at h
        obtain ⟨rfl, rfl⟩ := h
        rfl
      | .error e =>
        rw [hmk] at h
        exact absurd h (by simp)
  · intro env h
    have hfalsy : pyTruthy env.appKey = false ∨ pyTruthy env.appSecret = false := by
      rcases h with h | h <;> [left; right] <;> simp [pyTruthy, h]
    simp [getTokenManager, mkKISTokenMgr, hfalsy]

/-- Environment with both credentials set, used by the witness. -/
def kisEnvGood : KISEnv :=
  { appKey := some "app-key", appSecret := some "app-secret", baseURL := none }

/-- Environment with `KIS_APP_KEY` unset, used by the witness. -/
def kisEnvNoKey : KISEnv :=
  { appKey := none, appSecret := some "app-secret", baseURL := none }

def kisMgrGood : KISTokenMgr :=
  { app_key := "app-key", app_secret := "app-secret"
    base_url := DEFAULT_BASE_URL }

theorem get_token_manager_singleton_witness :
    getTokenManager (some kisMgrGood) kisEnvNoKey =
        .ok (kisMgrGood, some kisMgrGood)
      ∧ getTokenManager none kisEnvNoKey = .error initErrMsg :=
  ⟨get_token_manager_singleton.1 none kisEnvGood kisEnvNoKey kisMgrGood
      (some kisMgrGood) rfl,
    get_token_manager_singleton.2 kisEnvNoKey (Or.inl rfl)⟩

/-! ## `retry_on_429` (`stocks/utils.py`, claim C3)

The wrapped function is modelled by `calls : Nat → Except String α`, the
outcome of its `k`-th invocation (`.error` carries `str(e)`).  The jitter
drawn by `random.uniform(0, 1)` at attempt `k` is the argument `jitter k`,
and sleep durations are collected as rationals. -/

/-- Whether `pat` is an initial segment of `l`. -/
def prefixCheck : List Char → List Char → Bool
  | [], _ => true
  | _ :: _, [] => false
  | a :: as, b :: bs => a == b && prefixCheck as bs

/-- Whether `pat` occurs contiguously inside the second list. -/
def subOccurs (pat : List Char) : List Char → Bool
  | [] => pat.isEmpty
  | c :: cs => prefixCheck pat (c :: cs) || subOccurs pat cs

/-- Python `pat in s`. -/
def containsSubstr (s pat : String) : Bool := subOccurs pat.data s.data

/-- Python `str.lower()`; the three patterns the decorator looks for are ASCII, so
the ASCII `Char.toLower` suffices. -/
def pyLower (s : String) : String := String.mk (s.data.map Char.toLower)

/-- The rate-limit check of `retry_on_429`: the lowercased message contains
`"429"`, `"too many requests"` or `"rate limit"`. -/
def is429Error (msg : String) : Bool :=
  let m := pyLower msg
  containsSubstr m "429" || containsSubstr m "too many requests" ||
    containsSubstr m "rate limit"

/-- The `for attempt in range(max_retries + 1):` loop of `retry_on_429`.
`k` is the current attempt index, `fuel` the remaining iterations
(initially `maxRetries + 1`).  Returns the sleep durations performed and
either the wrapped value (`.ok (some v)`), the fallback `None`
(`.ok none`), or the re-raised exception (`.error e`). -/
def retryOn429Loop {α : Type} (maxRetries : Nat) (baseDelay : ℚ)
    (calls : Nat → Except String α) (jitter : Nat → ℚ) :
    Nat → Nat → List ℚ × Except String (Option α)
  | _, 0 => ([], .ok none)
  | k, fuel + 1 =>
    match calls k with
    | .ok v => ([], .ok (some v))
    | .error e =>
      if is429Error e then
        if k < maxRetries then
          let d := baseDelay * 2 ^ k + jitter k
          let r := retryOn429Loop maxRetries baseDelay calls jitter (k + 1) fuel
          (d :: r.1, r.2)
        else ([], .ok none)
      else ([], .error e)

/-- The decorated function produced by `retry_on_429(max_retries,
base_delay)`. -/
def retryOn429 {α : Type} (maxRetries : Nat) (baseDelay : ℚ)
    (calls : Nat → Except String α) (jitter : Nat → ℚ) :
    List ℚ × Except String (Option α) :=
  retryOn429Loop maxRetries baseDelay calls jitter 0 (maxRetries + 1)

/-- Generic form of the backoff-list shift used by the wait loops. -/
lemma cons_map_range_shift {α : Type} (g : Nat → α) (k f : Nat) :
    g k :: (List.range f).map (fun i => g (k + 1 + i)) =
      (List.range (f + 1)).map (fun i => g (k + i)) := by
  rw [List.range_succ_eq_map, List.map_cons, List.map_map]
  refine List.cons_eq_cons.mpr ⟨by rw [Nat.add_zero], ?_⟩
  apply List.map_congr_left
  intro i _
  simp only [Function.comp]
  have h : k + 1 + i = k + i.succ := by omega
  rw [h]

/-- When every remaining attempt fails with a rate-limit error, the loop
sleeps once per retry (not after the last attempt) and returns `None`. -/
lemma retryOn429Loop_all_fail {α : Type} (mR : Nat) (bd : ℚ)
    (calls : Nat → Except String α) (j : Nat → ℚ) :
    ∀ (fuel k : Nat), k + fuel = mR + 1 →
      (∀ i, i < fuel → ∃ e, calls (k + i) = .error e ∧ is429Error e = true) →
      retryOn429Loop mR bd calls j k fuel =
        ((List.range (fuel - 1)).map (fun i => bd * 2 ^ (k + i) + j (k + i)),
          .ok none) := by
  intro fuel
  induction fuel with
  | zero => intro k _ _; simp [retryOn429Loop]
  | succ f ih =>
    intro k hk h
    obtain ⟨e, he, h429⟩ : ∃ e, calls k = .error e ∧ is429Error e = true := by
      simpa using h 0 (Nat.succ_pos f)
    by_cases hklt : k < mR
    · obtain ⟨f', rfl⟩ : ∃ f', f = f' + 1 := ⟨f - 1, by omega⟩
      have hrec := ih (k + 1) (by omega) (fun i hi => by
        have := h (i + 1) (Nat.succ_lt_succ hi)
        simpa [Nat.add_assoc, Nat.add_comm 1 i] using this)
      have hstep : retryOn429Loop mR bd calls j k (f' + 1 + 1) =
          ((bd * 2 ^ k + j k) ::
              (retryOn429Loop mR bd calls j (k + 1) (f' + 1)).1,
            (retryOn429Loop mR bd calls j (k + 1) (f' + 1)).2) := by
        simp [retryOn429Loop, he, h429, hklt]
      rw [hstep]
      simp only [hrec, Nat.add_sub_cancel]
      rw [Prod.mk.injEq]
      refine ⟨?_, rfl⟩
      simpa using cons_map_range_shift (fun x => bd * 2 ^ x + j x) k f'
    · have hf : f = 0 := by omega
      subst hf
      simp [retryOn429Loop, he, h429, hklt]

/-- C3.  `retry_on_429` retries only rate-limit errors with exponential
backoff: when every attempt `0..maxRetries` fails with a message containing
"429", "too many requests" or "rate limit" (lowercased), it sleeps
`base_delay * 2 ^ k + jitter k` after each attempt `k < maxRetries` and
finally returns `None` instead of raising; a matching failure at an attempt
`k < maxRetries` sleeps and retries; a matching failure at
`k = maxRetries` returns `None`; a non-matching failure re-raises
immediately with no sleep and no retry. -/
theorem retry_on_429_spec {α : Type} (maxRetries : Nat) (baseDelay : ℚ)
    (calls : Nat → Except String α) (jitter : Nat → ℚ) :
    ((∀ k, k ≤ maxRetries → ∃ e, calls k = .error e ∧ is429Error e = true) →
      retryOn429 maxRetries baseDelay calls jitter =
        ((List.range maxRetries).map
            (fun k => baseDelay * 2 ^ k + jitter k), .ok none))
    ∧ (∀ k fuel e, calls k = .error e → is429Error e = true →
        k < maxRetries →
        retryOn429Loop maxRetries baseDelay calls jitter k (fuel + 1) =
          ((baseDelay * 2 ^ k + jitter k) ::
              (retryOn429Loop maxRetries baseDelay calls jitter
                (k + 1) fuel).1,
            (retryOn429Loop maxRetries baseDelay calls jitter
              (k + 1) fuel).2))
    ∧ (∀ k fuel e, calls k = .error e → is429Error e = true →
        ¬ k < maxRetries →
        retryOn429Loop maxRetries baseDelay calls jitter k (fuel + 1) =
          ([], .ok none))
    ∧ (∀ k fuel e, calls k = .error e → is429Error e = false →
        retryOn429Loop maxRetries baseDelay calls jitter k (fuel + 1) =
          ([], .error e)) := by
  refine ⟨?_, ?_, ?_, ?_⟩
  · intro h
    have := retryOn429Loop_all_fail maxRetries baseDelay calls jitter
      (maxRetries + 1) 0 (by omega)
      (fun i hi => by simpa using h i (Nat.lt_succ_iff.mp hi))
    simpa [retryOn429] using this
  · intro k fuel e he h429 hklt
    simp [retryOn429Loop, he, h429, hklt]
  · intro k fuel e he h429 hklt
    simp [retryOn429Loop, he, h429, hklt]
  · intro k fuel e he h429
    simp [retryOn429Loop, he, h429]

/-- Wrapped calls that always raise a 429 error, for the witness. -/
def always429Calls : Nat → Except String Nat := fun _ =>
  .error "429 Client Error: Too Many Requests"

theorem retry_on_429_spec_witness :
    retryOn429 2 3 always429Calls (fun _ => 1 / 2) =
      ((List.range 2).map (fun k => 3 * 2 ^ k + 1 / 2), .ok none) :=
  (retry_on_429_spec 2 3 always429Calls (fun _ => 1 / 2)).1
    (fun _ _ => ⟨"429 Client Error: Too Many Requests", rfl, by decide⟩)

/-! ## In-memory cache (`stocks/utils.py` `_cache` / `_cache_timestamps`,
claim C6)

The two module-level dicts are modelled as maps `String → Option _`; time
is an integer number of seconds, so the staleness check
`current_time - cache_time > timedelta(minutes=max_age_minutes)` becomes
`now - t > 60 * maxAgeMinutes`. -/

structure MemCache (α : Type) where
  data : String → Option α
  stamps : String → Option Int

/-- Python `get_cached_data(symbol, max_age_minutes)`: returns the cached value
and the (possibly pruned) cache state. -/
def getCachedData {α : Type} (now : Int) (maxAgeMinutes : Int)
    (symbol : String) (c : MemCache α) : Option α × MemCache α :=
  match c.data symbol, c.stamps symbol with
  | some d, some t =>
    if now - t > 60 * maxAgeMinutes then
      (none,
        { data := fun s => if s = symbol then none else c.data s
          stamps := fun s => if s = symbol then none else c.stamps s })
    else (some d, c)
  | _, _ => (none, c)

/-- Python `set_cached_data(symbol, data)`. -/
def setCachedData {α : Type} (now : Int) (symbol : String) (d : α)
    (c : MemCache α) : MemCache α :=
  { data := fun s => if s = symbol then some d else c.data s
    stamps := fun s => if s = symbol then some now else c.stamps s }

/-- C6.  TTL round-trip law of the in-memory cache: a read within
`max_age_minutes` of a write returns exactly the stored value and leaves
the cache untouched; a read after the age exceeds `max_age_minutes` returns
`None` and removes both the data entry and its timestamp; a read of a
symbol never stored returns `None`. -/
theorem cache_ttl_roundtrip {α : Type} (c : MemCache α) (symbol : String)
    (d : α) (t t' maxAge : Int) :
    (t' - t ≤ 60 * maxAge →
      getCachedData t' maxAge symbol (setCachedData t symbol d c) =
        (some d, setCachedData t symbol d c))
    ∧ (t' - t > 60 * maxAge →
        (getCachedData t' maxAge symbol (setCachedData t symbol d c)).1 =
            none
          ∧ (getCachedData t' maxAge symbol
              (setCachedData t symbol d c)).2.data symbol = none
          ∧ (getCachedData t' maxAge symbol
              (setCachedData t symbol d c)).2.stamps symbol = none)
    ∧ (c.data symbol = none ∨ c.stamps symbol = none →
        getCachedData t' maxAge symbol c = (none, c)) := by
  refine ⟨?_, ?_, ?_⟩
  · intro h
    have hc : ¬ 60 * maxAge < t' - t := by omega
    simp [getCachedData, setCachedData, hc]
  · intro h
    have hc : 60 * maxAge < t' - t := by omega
    refine ⟨?_, ?_, ?_⟩ <;> simp [getCachedData, setCachedData, hc]
  · intro h
    rcases h with h | h
    · simp [getCachedData, h]
    · rcases hd : c.data symbol with _ | d0
      · simp [getCachedData, hd]
      · simp [getCachedData, hd, h]

/-- The empty in-memory cache, for witnesses. -/
def emptyMemCache (α : Type) : MemCache α :=
  { data := fun _ => none, stamps := fun _ => none }

theorem cache_ttl_roundtrip_witness :
    getCachedData 60 5 "AAPL"
        (setCachedData 0 "AAPL" (7 : Nat) (emptyMemCache Nat)) =
      (some 7, setCachedData 0 "AAPL" 7 (emptyMemCache Nat)) :=
  (cache_ttl_roundtrip (emptyMemCache Nat) "AAPL" 7 0 60 5).1 (by decide)

/-! ## `get_stock_data` / `get_default_stock_data` (claim C10)

Result dicts are association lists from string keys to values; numbers
(Python ints and floats alike) are modelled as rationals.  The whole
yfinance fetch (library availability, the staged `yf.download` attempts,
empty history, column extraction) is collapsed into a `FetchOutcome`: every
exception path of the `try` block is `.failed`, the processed OHLCV numbers
of a successful fetch are `.ok`.  The body of `get_stock_data` catches
every exception and returns default data, so the embedded function is
total; the `retry_on_429` wrapper therefore never observes an exception. -/

inductive SVal where
  | s (v : String)
  | n (v : ℚ)
deriving DecidableEq

abbrev StockDict := List (String × SVal)

/-- Association-list lookup on a result dict. -/
def alookup (k : String) : StockDict → Option SVal
  | [] => none
  | (k', v) :: rest => if k' = k then some v else alookup k rest

/-- The keys claim C10 requires of every `get_stock_data` result. -/
def requiredStockKeys : List String :=
  ["symbol", "name", "sector", "price", "open", "high", "low", "volume",
    "previous_close", "change", "change_percent", "date", "data_source"]

def hasRequiredKeys (d : StockDict) : Bool :=
  requiredStockKeys.all (fun k => (alookup k d).isSome)

/-- The module-level `STOCK_SYMBOLS` table (name, sector). -/
def stockSymbolsTable (symbol : String) : Option (String × String) :=
  if symbol = "AAPL" then some ("Apple Inc", "Technology")
  else if symbol = "MSFT" then some ("Microsoft Corporation", "Technology")
  else if symbol = "GOOGL" then some ("Alphabet Inc", "Technology")
  else if symbol = "TSLA" then some ("Tesla Inc", "Consumer Cyclical")
  else if symbol = "AMZN" then some ("Amazon.com Inc", "Consumer Cyclical")
  else if symbol = "NVDA" then some ("NVIDIA Corporation", "Technology")
  else none

/-- The `default_data` table inside `get_default_stock_data`
(price, name, sector). -/
def defaultStockTable (symbol : String) : Option (ℚ × String × String) :=
  if symbol = "AAPL" then some (220, "Apple Inc", "Technology")
  else if symbol = "MSFT" then some (430, "Microsoft Corporation", "Technology")
  else if symbol = "GOOGL" then some (160, "Alphabet Inc", "Technology")
  else if symbol = "TSLA" then some (240, "Tesla Inc", "Consumer Cyclical")
  else if symbol = "AMZN" then some (170, "Amazon.com Inc", "Consumer Cyclical")
  else if symbol = "NVDA" then some (450, "NVIDIA Corporation", "Technology")
  else none

/-- Python `get_default_stock_data(symbol)`. -/
def getDefaultStockData (symbol : String) : StockDict :=
  let e := (defaultStockTable symbol).getD (0, "Unknown", "Unknown")
  [("symbol", .s symbol), ("name", .s e.2.1), ("sector", .s e.2.2),
    ("price", .n e.1), ("open", .n e.1), ("high", .n e.1), ("low", .n e.1),
    ("volume", .n 0), ("previous_close", .n e.1), ("change", .n 0),
    ("change_percent", .n 0), ("date", .s "N/A"),
    ("data_source", .s "default")]

/-- Outcome of the yfinance fetch inside `get_stock_data`'s `try` block. -/
inductive FetchOutcome where
  | ok (close prevClose openP highP lowP : ℚ) (volume : Int) (dateStr : String)
  | failed

/-- The result dict built from a successful fetch, including the
`change` / `change_percent` computation (the `previous_close != 0` guard). -/
def buildStockData (symbol : String) (close prev o hi lo : ℚ) (vol : Int)
    (date : String) : StockDict :=
  let change := close - prev
  let changePercent := if prev ≠ 0 then change / prev * 100 else 0
  let ns := (stockSymbolsTable symbol).getD (symbol, "Unknown")
  [("symbol", .s symbol), ("name", .s ns.1), ("sector", .s ns.2),
    ("price", .n close), ("open", .n o), ("high", .n hi),
    ("low", .n lo), ("volume", .n vol),
    ("previous_close", .n prev), ("change", .n change),
    ("change_percent", .n changePercent), ("date", .s date),
    ("data_source", .s "yfinance_download")]

/-- Python `get_stock_data(symbol)`: serve a fresh cache entry when present,
otherwise build the result from the fetch — or, on any failure, from
`get_default_stock_data` — and cache it. -/
def getStockData (symbol : String) (now : Int) (c : MemCache StockDict)
    (fetch : FetchOutcome) : StockDict × MemCache StockDict :=
  let r := getCachedData now 15 symbol c
  match r.1 with
  | some d => (d, r.2)
  | none =>
    match fetch with
    | .ok close prev o hi lo vol date =>
      let d := buildStockData symbol close prev o hi lo vol date
      (d, setCachedData now symbol d r.2)
    | .failed =>
      let d := getDefaultStockData symbol
      (d, setCachedData now symbol d r.2)

/-- A cache hit always comes from the data map. -/
lemma getCachedData_hit {α : Type} (now maxAge : Int) (symbol : String)
    (c : MemCache α) (d : α)
    (h : (getCachedData now maxAge symbol c).1 = some d) :
    c.data symbol = some d := by
  rcases hd : c.data symbol with _ | d0 <;>
    rcases ht : c.stamps symbol with _ | t0 <;>
      simp only [getCachedData, hd, ht] at h
  · exact absurd h (by simp)
  · exact absurd h (by simp)
  · exact absurd h (by simp)
  · split at h
    · exact absurd h (by simp)
    · simpa using h

/-- Every dict `get_stock_data` can build carries the required keys. -/
lemma hasRequiredKeys_build (symbol : String) (close prev o hi lo : ℚ)
    (vol : Int) (date : String) :
    hasRequiredKeys (buildStockData symbol close prev o hi lo vol date) =
      true := rfl

lemma hasRequiredKeys_default (symbol : String) :
    hasRequiredKeys (getDefaultStockData symbol) = true := rfl

/-- C10.  `get_stock_data` is total at its interface: assuming every dict
already in the cache has the required keys (an invariant its own writes
preserve), the result always carries the `symbol, name, sector, price,
open, high, low, volume, previous_close, change, change_percent, date,
data_source` keys; on any fetch failure with no fresh cache entry it
returns `get_default_stock_data(symbol)` and also writes it into the
cache; and the default data has `data_source = "default"`, zero change,
change-percent and volume, date `"N/A"`, and for symbols outside the
default table price `0` and name `"Unknown"`. -/
theorem get_stock_data_total (symbol : String) (now : Int)
    (c : MemCache StockDict) (fetch : FetchOutcome)
    (hwf : ∀ s d, c.data s = some d → hasRequiredKeys d = true) :
    hasRequiredKeys (getStockData symbol now c fetch).1 = true
    ∧ ((getCachedData now 15 symbol c).1 = none → fetch = .failed →
        (getStockData symbol now c fetch).1 = getDefaultStockData symbol
        ∧ (getStockData symbol now c fetch).2.data symbol =
            some (getDefaultStockData symbol))
    ∧ alookup "data_source" (getDefaultStockData symbol) = some (.s "default")
    ∧ alookup "change" (getDefaultStockData symbol) = some (.n 0)
    ∧ alookup "change_percent" (getDefaultStockData symbol) = some (.n 0)
    ∧ alookup "volume" (getDefaultStockData symbol) = some (.n 0)
    ∧ alookup "date" (getDefaultStockData symbol) = some (.s "N/A")
    ∧ (defaultStockTable symbol = none →
        alookup "price" (getDefaultStockData symbol) = some (.n 0)
        ∧ alookup "name" (getDefaultStockData symbol) =
            some (.s "Unknown")) := by
  refine ⟨?_, ?_, rfl, rfl, rfl, rfl, rfl, ?_⟩
  · rcases hr : (getCachedData now 15 symbol c).1 with _ | d
    · cases fetch with
      | ok close prev o hi lo vol date =>
        have h1 : (getStockData symbol now c
            (.ok close prev o hi lo vol date)).1 =
            buildStockData symbol close prev o hi lo vol date := by
          simp [getStockData, hr]
        rw [h1, hasRequiredKeys_build]
      | failed =>
        have h1 : (getStockData symbol now c .failed).1 =
            getDefaultStockData symbol := by
          simp [getStockData, hr]
        rw [h1, hasRequiredKeys_default]
    · have h1 : (getStockData symbol now c fetch).1 = d := by
        simp [getStockData, hr]
      rw [h1]
      exact hwf symbol d (getCachedData_hit now 15 symbol c d hr)
  · intro hr hf
    subst hf
    refine ⟨by simp [getStockData, hr], ?_⟩
    simp [getStockData, hr, setCachedData]
  · intro h
    refine ⟨?_, ?_⟩ <;> simp only [getDefaultStockData, h] <;> rfl

theorem get_stock_data_total_witness :
    (getStockData "FOO" 0 (emptyMemCache StockDict) .failed).1 =
        getDefaultStockData "FOO"
      ∧ (getStockData "FOO" 0 (emptyMemCache StockDict) .failed).2.data
          "FOO" = some (getDefaultStockData "FOO") :=
  (get_stock_data_total "FOO" 0 (emptyMemCache StockDict) .failed
    (fun _ d h => by simp [emptyMemCache] at h)).2.1 rfl rfl

/-! ## Redis OTP manager (`accounts/redis_otp.py`, claims C4, C8, C9)

`hashlib.pbkdf2_hmac('sha256', code, salt, 100000).hex()` is abstracted as
an argument `pbkdf2 : String → String → String` — a pure function of the
code and the salt (the iteration count is fixed); its hex output contains
no `':'`, which enters the theorems as a hypothesis.  The salt drawn by
`secrets.token_hex(16)` and the value of `secrets.randbelow(1_000_000)`
are explicit arguments. -/

/-- Python `stored_hash.split(':', 1)` on the character list: split at the first
`':'`; `none` models the `ValueError` of unpacking a single element. -/
def splitAtFirst (c : Char) : List Char → Option (List Char × List Char)
  | [] => none
  | x :: xs =>
    if x = c then some ([], xs)
    else (splitAtFirst c xs).map (fun p => (x :: p.1, p.2))

/-- Python `RedisOTPManager._hash` with the salt made explicit: returns
`f"{hash_value}:{salt}"`. -/
def hashCode (pbkdf2 : String → String → String) (salt code : String) :
    String :=
  pbkdf2 code salt ++ ":" ++ salt

/-- Python `RedisOTPManager._verify_hash`: split the stored string at its first
`':'`, recompute the hash over the salt part, compare; malformed input
(no separator) yields `False` via the caught `ValueError`. -/
def verifyHash (pbkdf2 : String → String → String) (code stored : String) :
    Bool :=
  match splitAtFirst ':' stored.data with
  | some (hp, salt) => pbkdf2 code (String.mk salt) = String.mk hp
  | none => false

lemma splitAtFirst_append (c : Char) (l1 l2 : List Char) (h : c ∉ l1) :
    splitAtFirst c (l1 ++ c :: l2) = some (l1, l2) := by
  induction l1 with
  | nil => simp [splitAtFirst]
  | cons x xs ih =>
    have hx : ¬ x = c := fun hxc => h (hxc ▸ List.mem_cons_self x xs)
    simp [splitAtFirst, hx, ih (fun hc => h (List.mem_cons_of_mem _ hc))]

lemma splitAtFirst_not_mem (c : Char) (l : List Char) (h : c ∉ l) :
    splitAtFirst c l = none := by
  induction l with
  | nil => rfl
  | cons x xs ih =>
    have hx : ¬ x = c := fun hxc => h (hxc ▸ List.mem_cons_self x xs)
    simp [splitAtFirst, hx, ih (fun hc => h (List.mem_cons_of_mem _ hc))]

/-- C9.  The OTP hashing pair is a round trip and `_verify_hash` is total:
for every code and salt, `_verify_hash(code, _hash(code))` is `True`
whatever salt `_hash` drew (both sides recompute the same PBKDF2 value,
whose hex output contains no `':'`); and on a stored string with no `':'`
separator `_verify_hash` returns `False` rather than raising. -/
theorem otp_hash_roundtrip :
    (∀ (pbkdf2 : String → String → String) (code salt : String),
      ':' ∉ (pbkdf2 code salt).data →
      verifyHash pbkdf2 code (hashCode pbkdf2 salt code) = true)
    ∧ (∀ (pbkdf2 : String → String → String) (code stored : String),
        ':' ∉ stored.data → verifyHash pbkdf2 code stored = false) := by
  constructor
  · intro pbkdf2 code salt h
    have hdata : (hashCode pbkdf2 salt code).data =
        (pbkdf2 code salt).data ++ ':' :: salt.data := by
      simp [hashCode, String.data_append]
    simp only [verifyHash, hdata, splitAtFirst_append ':' _ _ h]
    simp
  · intro pbkdf2 code stored h
    simp only [verifyHash, splitAtFirst_not_mem ':' _ h]

theorem otp_hash_roundtrip_witness :
    verifyHash (fun c s => c ++ s) "123456"
        (hashCode (fun c s => c ++ s) "abcd" "123456") = true
      ∧ verifyHash (fun c s => c ++ s) "123456" "no-separator" = false :=
  ⟨otp_hash_roundtrip.1 (fun c s => c ++ s) "123456" "abcd" (by decide),
    otp_hash_roundtrip.2 (fun c s => c ++ s) "123456" "no-separator"
      (by decide)⟩

/-! ### `RedisOTPManager.issue` (claim C4) -/

def OTP_DEFAULT_TTL_MINUTES : Nat := 10
def OTP_MAX_ATTEMPTS : Nat := 5

/-- The JSON object `issue` stores (and returns serialized). -/
structure OTPData where
  code_hash : String
  attempts : Nat
  verified : Bool
  created_at : String
  purpose : String
  email : String
deriving DecidableEq

/-- Python `RedisOTPManager._generate_key`: `f"otp:{email}:{purpose}"`. -/
def otpKey (email purpose : String) : String :=
  "otp:" ++ email ++ ":" ++ purpose

/-- Python `f"{secrets.randbelow(1_000_000):06d}"`: the decimal digits of `n`
zero-padded to width 6 (agrees with Python formatting on the whole range
`n < 1_000_000` that `randbelow` can produce). -/
def sixDigitCode (n : Nat) : String :=
  String.mk [Nat.digitChar (n / 100000 % 10), Nat.digitChar (n / 10000 % 10),
    Nat.digitChar (n / 1000 % 10), Nat.digitChar (n / 100 % 10),
    Nat.digitChar (n / 10 % 10), Nat.digitChar (n % 10)]

/-- What one `issue` call returns and stores: the returned `(otp_data,
plain_code)` pair, and the `cache.set(key, value, timeout)` write. -/
structure IssueOut where
  retData : OTPData
  retCode : String
  storeKey : String
  storeVal : OTPData
  storeTimeout : Nat
deriving DecidableEq

/-- Python `RedisOTPManager.issue`. -/
def issueOTP (email purpose : String) (ttlMinutes : Option Nat) (rand : Nat)
    (salt : String) (pbkdf2 : String → String → String) (nowIso : String) :
    IssueOut :=
  let ttl := ttlMinutes.getD OTP_DEFAULT_TTL_MINUTES
  let code := sixDigitCode rand
  let data : OTPData :=
    { code_hash := hashCode pbkdf2 salt code
      attempts := 0
      verified := false
      created_at := nowIso
      purpose := purpose
      email := email }
  { retData := data, retCode := code, storeKey := otpKey email purpose
    storeVal := data, storeTimeout := ttl * 60 }

lemma digitChar_mod_isDigit (x : Nat) :
    (Nat.digitChar (x % 10)).isDigit = true := by
  have h : x % 10 < 10 := Nat.mod_lt _ (by norm_num)
  interval_cases h : x % 10 <;> rfl

/-- C4.  `issue` stores every OTP with a TTL: the plain code is six decimal
digits, the stored JSON object lives under `"otp:{email}:{purpose}"` with
`attempts = 0`, `verified = False`, the salted hash of the code, the issue
time, the purpose and the email, for `ttl_minutes * 60` seconds
(`ttl_minutes` defaulting to `DEFAULT_TTL_MINUTES = 10`), and the returned
pair is exactly that stored object together with the plain code. -/
theorem otp_issue_spec (email purpose : String) (ttlMinutes : Option Nat)
    (rand : Nat) (salt : String) (pbkdf2 : String → String → String)
    (nowIso : String) (hrand : rand < 1000000) :
    (issueOTP email purpose ttlMinutes rand salt pbkdf2 nowIso).storeKey =
        "otp:" ++ email ++ ":" ++ purpose
    ∧ (issueOTP email purpose ttlMinutes rand salt pbkdf2
        nowIso).storeTimeout = (ttlMinutes.getD 10) * 60
    ∧ (issueOTP email purpose ttlMinutes rand salt pbkdf2 nowIso).storeVal =
        (issueOTP email purpose ttlMinutes rand salt pbkdf2 nowIso).retData
    ∧ (issueOTP email purpose ttlMinutes rand salt pbkdf2
        nowIso).retData.attempts = 0
    ∧ (issueOTP email purpose ttlMinutes rand salt pbkdf2
        nowIso).retData.verified = false
    ∧ (issueOTP email purpose ttlMinutes rand salt pbkdf2
        nowIso).retData.code_hash = hashCode pbkdf2 salt
          (issueOTP email purpose ttlMinutes rand salt pbkdf2 nowIso).retCode
    ∧ (issueOTP email purpose ttlMinutes rand salt pbkdf2
        nowIso).retData.created_at = nowIso
    ∧ (issueOTP email purpose ttlMinutes rand salt pbkdf2
        nowIso).retData.purpose = purpose
    ∧ (issueOTP email purpose ttlMinutes rand salt pbkdf2
        nowIso).retData.email = email
    ∧ (issueOTP email purpose ttlMinutes rand salt pbkdf2
        nowIso).retCode.length = 6
    ∧ (issueOTP email purpose ttlMinutes rand salt pbkdf2
        nowIso).retCode.data.all Char.isDigit = true := by
  refine ⟨rfl, rfl, rfl, rfl, rfl, rfl, rfl, rfl, rfl, rfl, ?_⟩
  show (sixDigitCode rand).data.all Char.isDigit = true
  simp only [sixDigitCode, List.all_cons, List.all_nil, Bool.and_true,
    digitChar_mod_isDigit, Bool.and_self]

theorem otp_issue_spec_witness :
    (issueOTP "a@b.c" "signup" none 7 "salt" (fun c _ => c)
        "2025-01-01T00:00:00+00:00").storeTimeout = 10 * 60
      ∧ (issueOTP "a@b.c" "signup" none 7 "salt" (fun c _ => c)
          "2025-01-01T00:00:00+00:00").retCode.length = 6 :=
  ⟨(otp_issue_spec "a@b.c" "signup" none 7 "salt" (fun c _ => c)
      "2025-01-01T00:00:00+00:00" (by decide)).2.1,
    (otp_issue_spec "a@b.c" "signup" none 7 "salt" (fun c _ => c)
      "2025-01-01T00:00:00+00:00" (by decide)).2.2.2.2.2.2.2.2.2.1⟩

/-! ### `RedisOTPManager.verify` (claim C8) -/

/-- The cache operation a `verify` call performs on the OTP key. -/
inductive VerifyEffect where
  | noop
  | deleteKey
  | setData (d : OTPData)
deriving DecidableEq

def msgNoOTP : String := "인증번호를 먼저 요청해 주세요."
def msgExceeded : String := "시도 횟수를 초과했습니다. 다시 요청해 주세요."
def msgWrong : String := "인증번호가 올바르지 않습니다."
def msgVerified : String := "인증번호 검증이 완료되었습니다."

/-- Python `RedisOTPManager.verify` over the parsed stored data (`none` covers
both a missing key and corrupt JSON — both return failure without touching
the key).  Returns the `(success, message, otp_data)` triple and the cache
effect. -/
def verifyOTP (pbkdf2 : String → String → String) (stored : Option OTPData)
    (code : String) : (Bool × String × Option OTPData) × VerifyEffect :=
  match stored with
  | none => ((false, msgNoOTP, none), .noop)
  | some d =>
    if d.attempts ≥ OTP_MAX_ATTEMPTS then
      ((false, msgExceeded, none), .deleteKey)
    else if verifyHash pbkdf2 code d.code_hash = false then
      ((false, msgWrong, none), .setData { d with attempts := d.attempts + 1 })
    else
      ((true, msgVerified, some { d with verified := true }),
        .setData { d with verified := true })

/-- C8.  `verify` enforces `MAX_ATTEMPTS = 5`: with the counter already at
5 it deletes the key and fails; a wrong code increments `attempts` by
exactly one and changes nothing else; a correct code below the limit sets
`verified = True` and succeeds with the OTP data — so at most five
wrong-code attempts are possible against one issued OTP. -/
theorem otp_verify_attempt_limit (pbkdf2 : String → String → String)
    (d : OTPData) (code : String) :
    (d.attempts ≥ 5 →
      verifyOTP pbkdf2 (some d) code = ((false, msgExceeded, none), .deleteKey))
    ∧ (d.attempts < 5 → verifyHash pbkdf2 code d.code_hash = false →
        verifyOTP pbkdf2 (some d) code =
          ((false, msgWrong, none),
            .setData { d with attempts := d.attempts + 1 })
        ∧ (OTPData.mk d.code_hash (d.attempts + 1) d.verified d.created_at
            d.purpose d.email) = { d with attempts := d.attempts + 1 })
    ∧ (d.attempts < 5 → verifyHash pbkdf2 code d.code_hash = true →
        verifyOTP pbkdf2 (some d) code =
          ((true, msgVerified, some { d with verified := true }),
            .setData { d with verified := true })) := by
  refine ⟨?_, ?_, ?_⟩
  · intro h
    simp [verifyOTP, OTP_MAX_ATTEMPTS, h]
  · intro h hw
    have hn : ¬ d.attempts ≥ OTP_MAX_ATTEMPTS := by
      simp only [OTP_MAX_ATTEMPTS]; omega
    exact ⟨by simp [verifyOTP, hn, hw], rfl⟩
  · intro h hc
    have hn : ¬ d.attempts ≥ OTP_MAX_ATTEMPTS := by
      simp only [OTP_MAX_ATTEMPTS]; omega
    simp [verifyOTP, hn, hc]

/-- A stored OTP record with zero attempts, for the witness. -/
def otpDataW : OTPData :=
  { code_hash := "123456:salt", attempts := 0, verified := false
    created_at := "2025-01-01T00:00:00+00:00", purpose := "signup"
    email := "a@b.c" }

theorem otp_verify_attempt_limit_witness :
    verifyOTP (fun c _ => c) (some otpDataW) "999999" =
      ((false, msgWrong, none),
        .setData { otpDataW with attempts := 1 }) :=
  ((otp_verify_attempt_limit (fun c _ => c) otpDataW "999999").2.1
    (by decide) (by decide)).1

end DontCare
